import Mathlib

/-!
Shallow embedding of `src/youtube_downloader.py`, an interactive wrapper
around the yt-dlp extraction library.  Pure helper functions of the script
(`validate_url`, `is_playlist`, `get_playlist_config`, `get_format_string`)
are translated directly; the effectful orchestrator `download_videos` is
modelled as a function of its inputs together with the externally supplied
outcomes (probe result, confirmation answer, download result), returning a
record of its observable behaviour (result or escaping exception, number of
download calls, log flags).
-/

namespace YtDl

/-- Python's `needle in hay` substring test, as a Boolean list search. -/
def hasSubList (needle : List Char) : List Char → Bool
  | [] => needle.isEmpty
  | c :: rest => needle.isPrefixOf (c :: rest) || hasSubList needle rest

/-- Python's `needle in hay` on strings. -/
def hasSub (needle hay : String) : Bool :=
  hasSubList needle.toList hay.toList

/-- Characters Python's `int()` strips from both ends of its argument. -/
def isPySpace (c : Char) : Bool :=
  c == ' ' || c == '\t' || c == '\n' || c == '\r' ||
    c == Char.ofNat 11 || c == Char.ofNat 12

/-- Strip leading and trailing whitespace, as `int()` does. -/
def stripSpaces (cs : List Char) : List Char :=
  ((cs.dropWhile isPySpace).reverse.dropWhile isPySpace).reverse

/-- Value of a list of decimal digit characters. -/
def digitsVal (cs : List Char) : Nat :=
  cs.foldl (fun a c => a * 10 + (c.toNat - 48)) 0

/-- Value of a nonempty all-digit character list, `none` otherwise. -/
def digitsToNat (cs : List Char) : Option Nat :=
  if !cs.isEmpty && cs.all Char.isDigit then some (digitsVal cs) else none

/-- Python's `int(s)`: optional sign after stripping whitespace, then a
nonempty run of decimal digits; `none` models a raised `ValueError`. -/
def pyInt (s : String) : Option Int :=
  match stripSpaces s.toList with
  | '-' :: rest => (digitsToNat rest).map (fun n => -(n : Int))
  | '+' :: rest => (digitsToNat rest).map (fun n => (n : Int))
  | cs => (digitsToNat cs).map (fun n => (n : Int))

/-- Python's `str.isdigit()` restricted to ASCII decimal digits. -/
def pyIsDigit (s : String) : Bool :=
  !s.isEmpty && s.toList.all Char.isDigit

/-- Python's `s.replace(' ', '')`: remove space characters (only `' '`). -/
def removeSpaces (s : String) : String :=
  String.mk (s.toList.filter (fun c => c ≠ ' '))

/-- Python's `s.split(sep)` for a single-character separator, on lists. -/
def splitCharAux (sep : Char) : List Char → List Char → List (List Char)
  | [], acc => [acc.reverse]
  | c :: rest, acc =>
    if c == sep then acc.reverse :: splitCharAux sep rest []
    else splitCharAux sep rest (c :: acc)

/-- Python's `s.split(sep)` for a single-character separator. -/
def pySplit (sep : Char) (s : String) : List String :=
  (splitCharAux sep s.toList []).map String.mk

/-- Python's `s.lower()` (ASCII letters, which is all the script compares). -/
def pyLower (s : String) : String :=
  String.mk (s.toList.map Char.toLower)

end YtDl

namespace YtDl

theorem hasSubList_iff_infix (n h : List Char) :
    hasSubList n h = true ↔ n <:+: h := by
  induction h with
  | nil =>
    simp [hasSubList, List.isEmpty_iff]
  | cons c t ih =>
    simp [hasSubList, ih, List.infix_cons_iff, List.isPrefixOf_iff_prefix]

theorem hasSub_iff_infix (n h : String) :
    hasSub n h = true ↔ n.toList <:+: h.toList :=
  hasSubList_iff_infix _ _

end YtDl

namespace YtDl

/-- Equality on `Except` is decidable when it is on both components. -/
def exceptDecEq {ε α : Type} [DecidableEq ε] [DecidableEq α] :
    DecidableEq (Except ε α)
  | Except.ok x, Except.ok y =>
    if h : x = y then Decidable.isTrue (congrArg Except.ok h)
    else Decidable.isFalse (fun hc => h (Except.ok.inj hc))
  | Except.error x, Except.error y =>
    if h : x = y then Decidable.isTrue (congrArg Except.error h)
    else Decidable.isFalse (fun hc => h (Except.error.inj hc))
  | Except.ok _, Except.error _ => Decidable.isFalse (fun hc => Except.noConfusion hc)
  | Except.error _, Except.ok _ => Decidable.isFalse (fun hc => Except.noConfusion hc)

instance {ε α : Type} [DecidableEq ε] [DecidableEq α] : DecidableEq (Except ε α) :=
  exceptDecEq

/-- Characters allowed in a URL scheme after the first (urllib's
`scheme_chars`): letters, digits, `+`, `-`, `.`. -/
def schemeChar (c : Char) : Bool :=
  c.isAlphanum || c == '+' || c == '-' || c == '.'

/-- Drop a leading `scheme:` from the character list when the text before
the first `:` is a valid scheme (nonempty, starts with a letter, all scheme
characters), as `urllib.parse.urlsplit` does. -/
def splitScheme (cs : List Char) : List Char :=
  let pre := cs.takeWhile (fun c => c ≠ ':')
  match cs.dropWhile (fun c => c ≠ ':') with
  | ':' :: rest =>
    match pre with
    | c :: cs' => if c.isAlpha && (c :: cs').all schemeChar then rest else cs
    | [] => cs
  | _ => cs

/-- The `netloc` component computed by `urllib.parse.urlparse`: after the
scheme, a `//` introduces the netloc, read up to the next `/`, `?` or `#`;
mismatched square brackets raise `ValueError` (modelled as `.error`). -/
def parseNetloc (url : String) : Except String String :=
  match splitScheme url.toList with
  | '/' :: '/' :: tail =>
    let netloc := tail.takeWhile (fun c => c ≠ '/' && c ≠ '?' && c ≠ '#')
    if (netloc.contains '[' && !netloc.contains ']') ||
        (netloc.contains ']' && !netloc.contains '[') then
      Except.error "ValueError: Invalid IPv6 URL"
    else
      Except.ok (String.mk netloc)
  | _ => Except.ok ""

/-- `validate_url` (lines 19-25): parse the URL and test whether
`'youtube.com'` or `'youtu.be'` occurs in the netloc; a bare `except`
turns any parse error into `False`. -/
def validate_url (url : String) : Bool :=
  match parseNetloc url with
  | Except.error _ => false
  | Except.ok netloc => hasSub "youtube.com" netloc || hasSub "youtu.be" netloc

/-- `is_playlist` (lines 27-29): `'playlist' in url or '&list=' in url`. -/
def is_playlist (url : String) : Bool :=
  hasSub "playlist" url || hasSub "&list=" url

/-- `get_format_string` (lines 88-94). -/
def get_format_string (quality : String) : String :=
  if quality == "best" then
    "bestvideo*+bestaudio/best"
  else
    let height := quality.dropRight 1
    "bestvideo[height<=" ++ height ++ "]+bestaudio/best[height<=" ++ height ++ "]"

/-- The answers record produced by `get_user_input` (lines 31-74); an
inquirer question that is skipped or not asked yields `none`. -/
structure Preferences where
  url : String
  output_path : String
  playlist_options : Option String
  start_index : Option String
  end_index : Option String
  video_indices : Option String
  download_type : String
  quality : Option String
  audio_format : Option String
deriving Repr, DecidableEq

/-- Which answers records `get_user_input is_playlist_url` can return:
the URL passed `validate_url`; playlist questions appear only for playlist
URLs; start/end indices are asked (and digit-validated) exactly for the
"Select range" option; `video_indices` is asked, with no validation, exactly
for "Specific videos"; quality and audio format are mutually exclusive by
download type. -/
def collectorProducible (is_playlist_url : Bool) (p : Preferences) : Bool :=
  validate_url p.url &&
  (if is_playlist_url then
    (p.playlist_options == some "Full playlist" ||
     p.playlist_options == some "Select range" ||
     p.playlist_options == some "Specific videos") &&
    (if p.playlist_options == some "Select range" then
      (match p.start_index, p.end_index with
       | some s, some e => pyIsDigit s && pyIsDigit e
       | _, _ => false) && p.video_indices == none
     else if p.playlist_options == some "Specific videos" then
      p.start_index == none && p.end_index == none && p.video_indices.isSome
     else
      p.start_index == none && p.end_index == none && p.video_indices == none)
   else
    p.playlist_options == none && p.start_index == none &&
    p.end_index == none && p.video_indices == none) &&
  (p.download_type == "Video with Audio" || p.download_type == "Audio Only") &&
  (if p.download_type == "Audio Only" then
    p.quality == none &&
    (p.audio_format == some "mp3" || p.audio_format == some "wav" ||
     p.audio_format == some "m4a")
   else
    p.audio_format == none &&
    (p.quality == some "best" || p.quality == some "1080p" ||
     p.quality == some "720p" || p.quality == some "480p" ||
     p.quality == some "360p"))

/-- `get_playlist_config` (lines 76-86); `.error` models an uncaught
exception (`int()` failing, or indexing a missing/`None` answer). -/
def get_playlist_config (preferences : Preferences) : Except String (Option String) :=
  if preferences.playlist_options == some "Select range" then
    match preferences.start_index with
    | none => Except.error "TypeError: int() argument must not be None"
    | some s =>
      match pyInt s with
      | none => Except.error "ValueError: invalid literal for int()"
      | some start =>
        match preferences.end_index with
        | none => Except.error "TypeError: int() argument must not be None"
        | some e =>
          match pyInt e with
          | none => Except.error "ValueError: invalid literal for int()"
          | some stop => Except.ok (some (toString start ++ "-" ++ toString stop))
  else if preferences.playlist_options == some "Specific videos" then
    match preferences.video_indices with
    | none => Except.error "AttributeError: None has no attribute replace"
    | some t => Except.ok (some (removeSpaces t))
  else
    Except.ok none

/-- `start, end = map(int, playlist_items.split('-'))` (line 120); `.error`
models the `ValueError` raised on a non-integer part or on an unpack of a
split with more than two parts. -/
def splitRange (s : String) : Except String (Int × Int) :=
  match pySplit '-' s with
  | [a, b] =>
    match pyInt a, pyInt b with
    | some x, some y => Except.ok (x, y)
    | _, _ => Except.error "ValueError: invalid literal for int()"
  | _ => Except.error "ValueError: wrong number of values to unpack"

/-- One post-processor entry of the yt-dlp options (key, codec, quality). -/
structure PostProcessor where
  key : String
  preferredcodec : String
  preferredquality : String
deriving Repr, DecidableEq

/-- The `ydl_opts` dictionary built by `download_videos` (lines 104-124). -/
structure YdlOpts where
  format : String
  outtmpl : String
  ignoreerrors : Bool
  no_warnings : Bool
  quiet : Bool
  postprocessors : List PostProcessor
  playliststart : Option Int
  playlistend : Option Int
  playlist_items : Option String
deriving Repr, DecidableEq

/-- Lines 104-124 of `download_videos`: build `ydl_opts`, then interpret a
truthy `playlist_items` — split on `-` into start/end when it contains a
hyphen (this can raise, hence `Except`), otherwise pass it through. -/
def buildOpts (output_path : String) (quality : String) (audio_only : Bool)
    (audio_format : String) (playlist_items : Option String) :
    Except String YdlOpts :=
  let base : YdlOpts :=
    { format := if audio_only then "bestaudio/best" else "bestvideo+bestaudio/best"
      outtmpl := output_path ++ "/%(title)s.%(ext)s"
      ignoreerrors := true
      no_warnings := false
      quiet := false
      postprocessors :=
        if audio_only then [⟨"FFmpegExtractAudio", audio_format, "192"⟩] else []
      playliststart := none
      playlistend := none
      playlist_items := none }
  match playlist_items with
  | none => Except.ok base
  | some s =>
    if s == "" then Except.ok base
    else if hasSub "-" s then
      match splitRange s with
      | Except.ok (start, stop) =>
        Except.ok { base with playliststart := some start, playlistend := some stop }
      | Except.error e => Except.error e
    else
      Except.ok { base with playlist_items := some s }

/-- The metadata returned by the probe `ydl.extract_info(url, download=False)`:
whether it has an `entries` key (playlist), its title, duration, entry count. -/
structure Info where
  isPlaylistInfo : Bool
  title : String
  duration : Int
  numEntries : Nat
deriving Repr, DecidableEq

/-- Observable behaviour of one `download_videos` call: the returned value
(`.error` = an exception escaped the function), how many times
`ydl.download` was invoked, and which log lines were emitted. -/
structure DVOutcome where
  result : Except String Bool
  downloadCalls : Nat
  errorLogged : Bool
  cancelLogged : Bool
deriving Repr, DecidableEq

/-- `download_videos` (lines 96-152).  The extraction library and the
console are external, so the probe outcome, the confirmation answer and the
download outcome are inputs.  Option building (including the range split)
happens before the `try`, so its exception escapes; the probe, the summary,
the confirmation and the download sit inside `try`, whose `except` clause
logs the error and returns `False`. -/
def download_videos (url output_path : String) (quality : String)
    (audio_only : Bool) (audio_format : String) (playlist_items : Option String)
    (probe : Except String Info) (confirm : String)
    (dl : Except String Unit) : DVOutcome :=
  match buildOpts output_path quality audio_only audio_format playlist_items with
  | Except.error e => ⟨Except.error e, 0, false, false⟩
  | Except.ok _opts =>
    match probe with
    | Except.error _ => ⟨Except.ok false, 0, true, false⟩
    | Except.ok _info =>
      if pyLower confirm ≠ "y" then ⟨Except.ok false, 0, false, true⟩
      else
        match dl with
        | Except.error _ => ⟨Except.ok false, 1, true, false⟩
        | Except.ok _ => ⟨Except.ok true, 1, false, false⟩

end YtDl

namespace YtDl

theorem not_pySpace_of_digit (c : Char) (hc : c.isDigit = true) :
    isPySpace c = false := by
  by_contra hne
  rw [Bool.not_eq_false] at hne
  unfold isPySpace at hne
  simp only [Bool.or_eq_true, beq_iff_eq] at hne
  rcases hne with ((((rfl | rfl) | rfl) | rfl) | rfl) | rfl <;>
    exact absurd hc (by decide)

theorem dropWhile_pySpace_of_digits (cs : List Char)
    (h : cs.all Char.isDigit = true) : cs.dropWhile isPySpace = cs := by
  cases cs with
  | nil => rfl
  | cons c t =>
    have hc : c.isDigit = true := by
      have := h
      simp only [List.all_cons, Bool.and_eq_true] at this
      exact this.1
    simp [List.dropWhile_cons, not_pySpace_of_digit c hc]

theorem stripSpaces_of_digits (cs : List Char)
    (h : cs.all Char.isDigit = true) : stripSpaces cs = cs := by
  have h2 : cs.reverse.all Char.isDigit = true := by
    simpa [List.all_reverse] using h
  unfold stripSpaces
  rw [dropWhile_pySpace_of_digits cs h, dropWhile_pySpace_of_digits _ h2,
    List.reverse_reverse]

theorem pyInt_of_digits (s : String) (h : pyIsDigit s = true) :
    pyInt s = some ((digitsVal s.toList : Nat) : Int) := by
  obtain ⟨hne, hall⟩ : s.isEmpty = false ∧ s.toList.all Char.isDigit = true := by
    simpa [pyIsDigit, Bool.and_eq_true] using h
  have hlist : s.toList ≠ [] := by
    intro hx
    rcases s with ⟨cs⟩
    have hcs : cs = [] := hx
    subst hcs
    exact absurd hne (by decide)
  unfold pyInt
  rw [stripSpaces_of_digits s.toList hall]
  rcases hcs : s.toList with _ | ⟨c, t⟩
  · exact absurd hcs hlist
  · rw [hcs] at hall
    have hc : c.isDigit = true := by
      simp only [List.all_cons, Bool.and_eq_true] at hall
      exact hall.1
    have hcm : c ≠ '-' := by rintro rfl; exact absurd hc (by decide)
    have hcp : c ≠ '+' := by rintro rfl; exact absurd hc (by decide)
    split
    · rename_i heq
      exact absurd (List.cons.inj heq.symm).1.symm hcm
    · rename_i heq
      exact absurd (List.cons.inj heq.symm).1.symm hcp
    · simp [digitsToNat, hall, hcs]

/-- The descriptor `get_playlist_config` produces in "Select range" mode
from digit-string indices. -/
theorem get_playlist_config_range (p : Preferences) (s e : String)
    (hmode : p.playlist_options = some "Select range")
    (hs : p.start_index = some s) (he : p.end_index = some e)
    (hsd : pyIsDigit s = true) (hed : pyIsDigit e = true) :
    get_playlist_config p =
      Except.ok (some (toString ((digitsVal s.toList : Nat) : Int) ++ "-" ++
        toString ((digitsVal e.toList : Nat) : Int))) := by
  simp [get_playlist_config, hmode, hs, he, pyInt_of_digits s hsd,
    pyInt_of_digits e hed]

end YtDl

namespace YtDl

/-- C1: for a non-playlist URL, mode "Video with Audio" and quality "720p",
the download call is indeed made exactly once after an affirmative
confirmation, but the configuration built by `download_videos` sets the
format to the hard-coded `bestvideo+bestaudio/best`, which carries no
height≤720 restriction: `get_format_string` (which would produce the
restricted expression) is never consulted, so the claimed format property
fails on the code. -/
theorem C1_video720_format_bug :
    is_playlist "https://www.youtube.com/watch?v=dQw4w9WgXcQ" = false ∧
    (buildOpts "downloads" "720p" false "mp3" none).map YdlOpts.format =
      Except.ok "bestvideo+bestaudio/best" ∧
    hasSub "height<=720" "bestvideo+bestaudio/best" = false ∧
    get_format_string "720p" =
      "bestvideo[height<=720]+bestaudio/best[height<=720]" ∧
    download_videos "https://www.youtube.com/watch?v=dQw4w9WgXcQ" "downloads"
        "720p" false "mp3" none (Except.ok ⟨false, "Song", 212, 0⟩) "y"
        (Except.ok ()) = ⟨Except.ok true, 1, false, false⟩ := by
  decide

/-- C2 counterexample: the Preference Collector validates the range bounds
only as digit strings, so start "5" / end "2" is producible and yields the
descriptor "5-2" whose start 5 exceeds its end 2; likewise "Specific
videos" input is not validated at all, so the producible input "0, x"
yields index tokens "0" and "x", where "x" denotes no integer and "0" is
not positive. -/
theorem C2_counterexample_descriptor_invariant :
    collectorProducible true
      ⟨"https://www.youtube.com/playlist?list=PL1", "downloads",
        some "Select range", some "5", some "2", none, "Video with Audio",
        some "best", none⟩ = true ∧
    get_playlist_config
      ⟨"https://www.youtube.com/playlist?list=PL1", "downloads",
        some "Select range", some "5", some "2", none, "Video with Audio",
        some "best", none⟩ = Except.ok (some "5-2") ∧
    splitRange "5-2" = Except.ok (5, 2) ∧ ¬((5 : Int) ≤ 2) ∧
    collectorProducible true
      ⟨"https://www.youtube.com/playlist?list=PL1", "downloads",
        some "Specific videos", none, none, some "0, x", "Video with Audio",
        some "best", none⟩ = true ∧
    get_playlist_config
      ⟨"https://www.youtube.com/playlist?list=PL1", "downloads",
        some "Specific videos", none, none, some "0, x", "Video with Audio",
        some "best", none⟩ = Except.ok (some "0,x") ∧
    pySplit ',' "0,x" = ["0", "x"] ∧
    pyInt "x" = none ∧ pyInt "0" = some 0 := by
  decide

/-- C2 amended: for every collector-producible Preferences record, a range
descriptor is built from digit-validated bounds, so both endpoints are the
nonnegative integers those digit strings denote (start ≤ end is not
guaranteed), and an explicit selection is the entered text with spaces
removed (positivity of the tokens is not guaranteed). -/
theorem C2_amended_descriptor_shape (ispl : Bool) (p : Preferences)
    (hp : collectorProducible ispl p = true) :
    (∀ s e, p.playlist_options = some "Select range" →
      p.start_index = some s → p.end_index = some e →
      pyIsDigit s = true ∧ pyIsDigit e = true ∧
      get_playlist_config p =
        Except.ok (some (toString ((digitsVal s.toList : Nat) : Int) ++ "-" ++
          toString ((digitsVal e.toList : Nat) : Int)))) ∧
    (∀ t, p.playlist_options = some "Specific videos" →
      p.video_indices = some t →
      get_playlist_config p = Except.ok (some (removeSpaces t))) := by
  constructor
  · intro s e hmode hs he
    cases ispl with
    | false =>
      exfalso
      simp [collectorProducible, Bool.and_eq_true, hmode] at hp
    | true =>
      have hdig : pyIsDigit s = true ∧ pyIsDigit e = true := by
        simp [collectorProducible, hmode, hs, he] at hp
        exact ⟨hp.1.1.2.1.1, hp.1.1.2.1.2⟩
      exact ⟨hdig.1, hdig.2,
        get_playlist_config_range p s e hmode hs he hdig.1 hdig.2⟩
  · intro t hmode hvi
    simp [get_playlist_config, hmode, hvi]

theorem C2_amended_descriptor_shape_witness :
    collectorProducible true
      ⟨"https://www.youtube.com/playlist?list=PL1", "downloads",
        some "Select range", some "3", some "7", none, "Video with Audio",
        some "best", none⟩ = true ∧
    get_playlist_config
      ⟨"https://www.youtube.com/playlist?list=PL1", "downloads",
        some "Select range", some "3", some "7", none, "Video with Audio",
        some "best", none⟩ =
      Except.ok (some (toString ((digitsVal "3".toList : Nat) : Int) ++ "-" ++
        toString ((digitsVal "7".toList : Nat) : Int))) :=
  ⟨by decide,
    ((C2_amended_descriptor_shape true
      ⟨"https://www.youtube.com/playlist?list=PL1", "downloads",
        some "Select range", some "3", some "7", none, "Video with Audio",
        some "best", none⟩ (by decide)).1 "3" "7" rfl rfl rfl).2.2⟩

/-- C3: once the options are built, any error raised by the extraction
library is caught inside `download_videos`: a failing probe is logged and
the function returns `False` with the download never invoked, and a failing
download (after an affirmative confirmation) is logged and the function
returns `False`; neither exception escapes. -/
theorem C3_library_errors_caught (url output_path quality audio_format : String)
    (audio_only : Bool) (playlist_items : Option String) (opts : YdlOpts)
    (hopts : buildOpts output_path quality audio_only audio_format
      playlist_items = Except.ok opts) :
    (∀ e confirm dl,
      download_videos url output_path quality audio_only audio_format
        playlist_items (Except.error e) confirm dl =
        ⟨Except.ok false, 0, true, false⟩) ∧
    (∀ info e confirm, pyLower confirm = "y" →
      download_videos url output_path quality audio_only audio_format
        playlist_items (Except.ok info) confirm (Except.error e) =
        ⟨Except.ok false, 1, true, false⟩) := by
  constructor
  · intro e confirm dl
    simp [download_videos, hopts]
  · intro info e confirm hc
    simp [download_videos, hopts, hc]

theorem C3_library_errors_caught_witness :
    download_videos "https://www.youtube.com/watch?v=a" "downloads" "best"
        false "mp3" none (Except.error "network unreachable") "y"
        (Except.ok ()) = ⟨Except.ok false, 0, true, false⟩ ∧
    download_videos "https://www.youtube.com/watch?v=a" "downloads" "best"
        false "mp3" none (Except.ok ⟨false, "t", 5, 0⟩) "y"
        (Except.error "postprocessing failed") =
      ⟨Except.ok false, 1, true, false⟩ :=
  ⟨(C3_library_errors_caught "https://www.youtube.com/watch?v=a" "downloads"
      "best" "mp3" false none _ rfl).1 "network unreachable" "y" (Except.ok ()),
   (C3_library_errors_caught "https://www.youtube.com/watch?v=a" "downloads"
      "best" "mp3" false none _ rfl).2 ⟨false, "t", 5, 0⟩
      "postprocessing failed" "y" (by decide)⟩

/-- C4: the Selection Resolver is a pure function over Preferences; in
"Select range" mode digit-string bounds s, e produce the descriptor "s-e"
(which `download_videos` turns into playliststart s / playlistend e, items
s through e inclusive), "Specific videos" input "1, 3,5" produces "1,3,5"
whose comma tokens are ["1","3","5"] with spaces removed, and "Full
playlist" or absent mode produces the unrestricted descriptor `None`. -/
theorem C4_selection_resolver :
    (∀ (p : Preferences) (s e : String),
      p.playlist_options = some "Select range" →
      p.start_index = some s → p.end_index = some e →
      pyIsDigit s = true → pyIsDigit e = true →
      get_playlist_config p =
        Except.ok (some (toString ((digitsVal s.toList : Nat) : Int) ++ "-" ++
          toString ((digitsVal e.toList : Nat) : Int)))) ∧
    get_playlist_config
      ⟨"https://www.youtube.com/playlist?list=PL1", "downloads",
        some "Select range", some "1", some "5", none, "Video with Audio",
        some "best", none⟩ = Except.ok (some "1-5") ∧
    (buildOpts "downloads" "best" false "mp3" (some "1-5")).map
      (fun o => (o.playliststart, o.playlistend)) =
      Except.ok (some 1, some 5) ∧
    get_playlist_config
      ⟨"https://www.youtube.com/playlist?list=PL1", "downloads",
        some "Specific videos", none, none, some "1, 3,5", "Video with Audio",
        some "best", none⟩ = Except.ok (some "1,3,5") ∧
    pySplit ',' "1,3,5" = ["1", "3", "5"] ∧
    get_playlist_config
      ⟨"https://www.youtube.com/playlist?list=PL1", "downloads",
        some "Full playlist", none, none, none, "Video with Audio",
        some "best", none⟩ = Except.ok none ∧
    get_playlist_config
      ⟨"https://www.youtube.com/watch?v=a", "downloads", none, none, none,
        none, "Video with Audio", some "best", none⟩ = Except.ok none := by
  refine ⟨fun p s e h1 h2 h3 h4 h5 =>
    get_playlist_config_range p s e h1 h2 h3 h4 h5,
    by decide, by decide, by decide, by decide, by decide, by decide⟩

theorem C4_selection_resolver_witness :
    get_playlist_config
      ⟨"https://www.youtube.com/playlist?list=PL1", "downloads",
        some "Select range", some "2", some "4", none, "Video with Audio",
        some "best", none⟩ =
      Except.ok (some (toString ((digitsVal "2".toList : Nat) : Int) ++ "-" ++
        toString ((digitsVal "4".toList : Nat) : Int))) :=
  C4_selection_resolver.1
    ⟨"https://www.youtube.com/playlist?list=PL1", "downloads",
      some "Select range", some "2", some "4", none, "Video with Audio",
      some "best", none⟩ "2" "4" rfl rfl rfl (by decide) (by decide)

/-- C5: after a successful probe, any confirmation answer whose
lower-casing is not "y" makes `download_videos` return `False` with the
cancellation logged and the download never invoked; conversely the download
is invoked only when the lower-cased answer is "y". -/
theorem C5_confirmation_gate (url output_path quality audio_format : String)
    (audio_only : Bool) (playlist_items : Option String) (opts : YdlOpts)
    (hopts : buildOpts output_path quality audio_only audio_format
      playlist_items = Except.ok opts)
    (info : Info) (confirm : String) (dl : Except String Unit) :
    (pyLower confirm ≠ "y" →
      download_videos url output_path quality audio_only audio_format
        playlist_items (Except.ok info) confirm dl =
        ⟨Except.ok false, 0, false, true⟩) ∧
    ((download_videos url output_path quality audio_only audio_format
        playlist_items (Except.ok info) confirm dl).downloadCalls ≠ 0 →
      pyLower confirm = "y") := by
  constructor
  · intro hne
    simp [download_videos, hopts, hne]
  · intro hcalls
    by_contra hne
    simp [download_videos, hopts, hne] at hcalls

theorem C5_confirmation_gate_witness :
    download_videos "https://www.youtube.com/watch?v=a" "downloads" "best"
        false "mp3" none (Except.ok ⟨false, "t", 5, 0⟩) "No" (Except.ok ()) =
      ⟨Except.ok false, 0, false, true⟩ :=
  (C5_confirmation_gate "https://www.youtube.com/watch?v=a" "downloads"
    "best" "mp3" false none _ rfl ⟨false, "t", 5, 0⟩ "No" (Except.ok ())).1
    (by decide)

/-- C6: `is_playlist` is a total Boolean function returning true exactly
when the URL contains the substring "playlist" or the marker "&list=";
the spec's examples and a malformed URL evaluate as claimed. -/
theorem C6_playlist_marker :
    (∀ url : String, is_playlist url = true ↔
      ("playlist".toList <:+: url.toList ∨ "&list=".toList <:+: url.toList)) ∧
    is_playlist "https://www.youtube.com/playlist?list=X" = true ∧
    is_playlist "https://www.youtube.com/watch?v=X" = false ∧
    is_playlist "ht!tp: not a url ?&list=PL" = true ∧
    is_playlist "::::" = false := by
  refine ⟨fun url => ?_, by decide, by decide, by decide, by decide⟩
  simp [is_playlist, Bool.or_eq_true, hasSub_iff_infix]

/-- C7: `get_format_string` maps every offered quality tier to a fixed
non-empty expression: "best" to best-video-plus-best-audio with a "best"
fallback, and each height tier to an expression whose embedded bound is the
tier's numeric prefix, with a capped fallback. -/
theorem C7_format_spec_tiers :
    get_format_string "best" = "bestvideo*+bestaudio/best" ∧
    get_format_string "1080p" =
      "bestvideo[height<=1080]+bestaudio/best[height<=1080]" ∧
    get_format_string "720p" =
      "bestvideo[height<=720]+bestaudio/best[height<=720]" ∧
    get_format_string "480p" =
      "bestvideo[height<=480]+bestaudio/best[height<=480]" ∧
    get_format_string "360p" =
      "bestvideo[height<=360]+bestaudio/best[height<=360]" ∧
    get_format_string "best" ≠ "" ∧ get_format_string "1080p" ≠ "" ∧
    get_format_string "720p" ≠ "" ∧ get_format_string "480p" ≠ "" ∧
    get_format_string "360p" ≠ "" := by
  decide

/-- C8: `validate_url` is a total Boolean function that fails closed: when
URL parsing raises (modelled as `parseNetloc` returning an error), it
returns `false` rather than propagating the exception. -/
theorem C8_validate_url_fails_closed (url : String) :
    (∀ e, parseNetloc url = Except.error e → validate_url url = false) ∧
    (validate_url url = true ∨ validate_url url = false) := by
  constructor
  · intro e he
    simp [validate_url, he]
  · exact Bool.eq_false_or_eq_true (validate_url url)

theorem C8_validate_url_fails_closed_witness :
    parseNetloc "http://[::1" = Except.error "ValueError: Invalid IPv6 URL" ∧
    validate_url "http://[::1" = false :=
  ⟨by decide,
    (C8_validate_url_fails_closed "http://[::1").1
      "ValueError: Invalid IPv6 URL" (by decide)⟩

/-- C9: `download_videos` splits any truthy hyphen-containing
playlist_items on "-" and converts the parts with `int` before its
try-block: a successful split restricts the playlist range, and a failing
conversion escapes as an exception; the collector-producible "Specific
videos" input "1-3, 5" produces exactly such a descriptor, on which
`download_videos` raises instead of returning. -/
theorem C9_hyphen_items_escape :
    (∀ (output_path quality audio_format s : String) (audio_only : Bool)
        (a b : Int), s ≠ "" → hasSub "-" s = true →
      splitRange s = Except.ok (a, b) →
      (buildOpts output_path quality audio_only audio_format (some s)).map
        (fun o => (o.playliststart, o.playlistend)) =
        Except.ok (some a, some b)) ∧
    (∀ (url output_path quality audio_format confirm s e : String)
        (audio_only : Bool) (probe : Except String Info)
        (dl : Except String Unit), s ≠ "" → hasSub "-" s = true →
      splitRange s = Except.error e →
      download_videos url output_path quality audio_only audio_format
        (some s) probe confirm dl = ⟨Except.error e, 0, false, false⟩) ∧
    collectorProducible true
      ⟨"https://www.youtube.com/playlist?list=PL1", "downloads",
        some "Specific videos", none, none, some "1-3, 5",
        "Video with Audio", some "best", none⟩ = true ∧
    get_playlist_config
      ⟨"https://www.youtube.com/playlist?list=PL1", "downloads",
        some "Specific videos", none, none, some "1-3, 5",
        "Video with Audio", some "best", none⟩ =
      Except.ok (some "1-3,5") ∧
    download_videos "https://www.youtube.com/playlist?list=PL1" "downloads"
        "best" false "mp3" (some "1-3,5") (Except.ok ⟨true, "PL", 0, 9⟩) "y"
        (Except.ok ()) =
      ⟨Except.error "ValueError: invalid literal for int()", 0, false,
        false⟩ := by
  refine ⟨?_, ?_, by decide, by decide, by decide⟩
  · intro output_path quality audio_format s audio_only a b hne hsub hsplit
    simp [buildOpts, Except.map, hne, hsub, hsplit]
  · intro url output_path quality audio_format confirm s e audio_only probe
      dl hne hsub hsplit
    simp [download_videos, buildOpts, hne, hsub, hsplit]

theorem C9_hyphen_items_escape_witness :
    (buildOpts "downloads" "best" false "mp3" (some "2-4")).map
      (fun o => (o.playliststart, o.playlistend)) =
      Except.ok (some 2, some 4) ∧
    download_videos "u" "downloads" "best" false "mp3" (some "1-x")
      (Except.ok ⟨true, "PL", 0, 2⟩) "y" (Except.ok ()) =
      ⟨Except.error "ValueError: invalid literal for int()", 0, false,
        false⟩ :=
  ⟨C9_hyphen_items_escape.1 "downloads" "best" "mp3" "2-4" false 2 4
      (by decide) (by decide) (by decide),
   C9_hyphen_items_escape.2.1 "u" "downloads" "best" "mp3" "y" "1-x"
      "ValueError: invalid literal for int()" false
      (Except.ok ⟨true, "PL", 0, 2⟩) (Except.ok ()) (by decide) (by decide)
      (by decide)⟩

/-- C10: `validate_url` accepts exactly the URLs whose parsed netloc
contains "youtube.com" or "youtu.be" as a substring; in particular a URL
with host "notyoutube.com" is accepted. -/
theorem C10_validate_url_netloc_substring :
    (∀ url netloc : String, parseNetloc url = Except.ok netloc →
      (validate_url url = true ↔
        ("youtube.com".toList <:+: netloc.toList ∨
          "youtu.be".toList <:+: netloc.toList))) ∧
    parseNetloc "https://notyoutube.com/watch?v=abc" =
      Except.ok "notyoutube.com" ∧
    validate_url "https://notyoutube.com/watch?v=abc" = true := by
  refine ⟨fun url netloc h => ?_, by decide, by decide⟩
  simp [validate_url, h, Bool.or_eq_true, hasSub_iff_infix]

theorem C10_validate_url_netloc_substring_witness :
    validate_url "https://www.youtube.com/watch?v=x" = true ↔
      ("youtube.com".toList <:+: "www.youtube.com".toList ∨
        "youtu.be".toList <:+: "www.youtube.com".toList) :=
  C10_validate_url_netloc_substring.1 "https://www.youtube.com/watch?v=x"
    "www.youtube.com" (by decide)

end YtDl

